import Mathlib

/-!
Shallow embedding of the X11 clipboard poller of CopyQ
(src/platform/x11/x11platformclipboard.cpp) and proofs about its behavior.

Modelling conventions:
* `QVariantMap` values (clipboard payload mappings) are association lists
  `List (FormatId × Payload)`; every mapping manipulated by the poller is
  produced by `cloneData` over a fixed format list, so list equality
  coincides with the C++ map equality used by `operator==`.
* `QTimer` is a record of its interval and whether it is armed; `stop`,
  `start`, `start(int)` and `setInterval` are modelled field by field.
* The platform read primitive `::clipboardData(mode)` and the window title
  query `clipboardOwner()` are external inputs, passed as parameters
  (`Option RawData`, `Payload`).
* `emit changed(mode)` is modelled by returning a list of emitted modes.
* `check` additionally returns the list of trackers whose
  `updateClipboardData` actually ran, reflecting that the C++ `||` between
  the two calls short-circuits.
-/

namespace X11Clipboard

/-- The two X11 buffers, as in `ClipboardMode`. -/
inductive ClipboardMode where
  | Clipboard
  | Selection
deriving DecidableEq, Repr

abbrev FormatId := String

abbrev Payload := String

/-- A `QVariantMap` of format to payload, as an association list. -/
abbrev VarMap := List (FormatId × Payload)

/-- One raw read of a buffer (`QMimeData` access by format). -/
abbrev RawData := FormatId → Option Payload

/-- `mimeText` from common/mimetypes.h. -/
def mimeText : FormatId := "text/plain"

/-- `mimeOwner` from common/mimetypes.h. -/
def mimeOwner : FormatId := "application/x-copyq-owner"

/-- `mimeWindowTitle` from common/mimetypes.h. -/
def mimeWindowTitle : FormatId := "application/x-copyq-owner-window-title"

def minCheckAgainIntervalMs : Nat := 50

def maxCheckAgainIntervalMs : Nat := 500

def maxRetryCount : Nat := 3

/-- A `QTimer`: current interval and whether it is armed. -/
structure Timer where
  intervalMs : Nat
  active : Bool
deriving DecidableEq, Repr

/-- `QTimer::stop` leaves the interval in place. -/
def Timer.stop (t : Timer) : Timer := { t with active := false }

/-- `QTimer::start()` arms the timer at its current interval. -/
def Timer.start (t : Timer) : Timer := { t with active := true }

/-- `QTimer::start(int)` sets the interval and arms the timer. -/
def Timer.startWith (t : Timer) (i : Nat) : Timer :=
  { t with intervalMs := i, active := true }

/-- `QTimer::setInterval(int)` - only the interval field changes. -/
def Timer.setInterval (t : Timer) (i : Nat) : Timer :=
  { t with intervalMs := i }

/-- `QVariantMap` key lookup (first matching key). -/
def lookupMap : VarMap → FormatId → Option Payload
  | [], _ => none
  | p :: m, k => if p.1 = k then some p.2 else lookupMap m k

/-- `QVariantMap::contains`. -/
def containsKey (m : VarMap) (k : FormatId) : Bool :=
  (lookupMap m k).isSome

/-- `map[k] = v`: replace the value at an existing key, else append. -/
def insertMap (m : VarMap) (k : FormatId) (v : Payload) : VarMap :=
  if containsKey m k then
    m.map (fun p => if p.1 = k then (k, v) else p)
  else
    m ++ [(k, v)]

/-- `cloneData(data, formats)`: restrict a raw read to the given formats. -/
def cloneData (raw : RawData) (formats : List FormatId) : VarMap :=
  formats.filterMap (fun f => (raw f).map (fun v => (f, v)))

/-- `data->data("TIMESTAMP")`; a missing format yields an empty byte array. -/
def rawTimestamp (raw : RawData) : Payload :=
  (raw "TIMESTAMP").getD ""

/-- The per-buffer state `X11PlatformClipboard::ClipboardData`. -/
structure ClipboardData where
  mode : ClipboardMode
  enabled : Bool := true
  formats : List FormatId := []
  owner : Payload := ""
  newOwner : Payload := ""
  data : VarMap := []
  newData : VarMap := []
  changed : Bool := false
  retry : Nat := 0
  newDataTimestamp : Payload := ""
  timerEmitChange : Timer := { intervalMs := 0, active := false }
deriving DecidableEq, Repr

/-- The whole component state of `X11PlatformClipboard`. -/
structure X11State where
  m_clipboardData : ClipboardData
  m_selectionData : ClipboardData
  m_timerCheckAgain : Timer
deriving DecidableEq, Repr

/-- The tracker selected by mode, as in
`mode == ClipboardMode::Clipboard ? m_clipboardData : m_selectionData`. -/
def X11State.tracker (s : X11State) : ClipboardMode → ClipboardData
  | ClipboardMode.Clipboard => s.m_clipboardData
  | ClipboardMode.Selection => s.m_selectionData

/-- Write a tracker back into the state. -/
def X11State.setTracker (s : X11State) (mode : ClipboardMode) (cd : ClipboardData) : X11State :=
  match mode with
  | ClipboardMode.Clipboard => { s with m_clipboardData := cd }
  | ClipboardMode.Selection => { s with m_selectionData := cd }

/-- `X11PlatformClipboard::updateClipboardData`.  The external read result
stands for `::clipboardData(clipboardData->mode)`; the shared re-check timer
`m_timerCheckAgain` is threaded explicitly because the retry path starts it.
Returns the updated tracker, the updated shared timer, and the return value
of the C++ function. -/
def updateClipboardData (readResult : Option RawData) (tCheckAgain : Timer)
    (cd : ClipboardData) : ClipboardData × Timer × Bool :=
  if cd.enabled then
    match readResult with
    | none =>
      if cd.retry < maxRetryCount then
        ({ cd with retry := cd.retry + 1 },
         tCheckAgain.startWith ((cd.retry + 1) * maxCheckAgainIntervalMs),
         false)
      else
        (cd, tCheckAgain, false)
    | some raw =>
      let cd1 := { cd with retry := 0 }
      let ts := rawTimestamp raw
      let cd2 :=
        if ts = "" ∨ cd1.newDataTimestamp ≠ ts then
          { cd1 with newDataTimestamp := ts, newData := cloneData raw cd1.formats }
        else cd1
      if cd2.changed then
        ({ cd2 with timerEmitChange := cd2.timerEmitChange.start }, tCheckAgain, true)
      else if cd2.data = cd2.newData then
        (cd2, tCheckAgain, false)
      else
        ({ cd2 with changed := true, timerEmitChange := cd2.timerEmitChange.start },
         tCheckAgain, true)
  else
    (cd, tCheckAgain, false)

/-- `X11PlatformClipboard::useNewClipboardData`: copy pending into published,
clear the changed flag, stop the emit timer and emit `changed(mode)`.
The emitted events are returned as a list of modes. -/
def useNewClipboardData (cd : ClipboardData) : ClipboardData × List ClipboardMode :=
  ({ cd with
      data := cd.newData
      owner := cd.newOwner
      changed := false
      timerEmitChange := cd.timerEmitChange.stop },
   [cd.mode])

/-- `X11PlatformClipboard::checkAgainLater` acting on `m_timerCheckAgain`. -/
def checkAgainLater (clipboardChanged : Bool) (interval : Nat) (t : Timer) : Timer :=
  let t1 := t.setInterval interval
  if interval < maxCheckAgainIntervalMs then
    t1.start
  else if clipboardChanged then
    t1.startWith maxCheckAgainIntervalMs
  else
    t1.setInterval 0

/-- The tail of `check`: early return when a retry re-armed the shared timer,
otherwise schedule the next poll at `interval() * 2 + minCheckAgainIntervalMs`. -/
def checkFinish (s : X11State) (changed : Bool) : X11State :=
  if s.m_timerCheckAgain.active then
    s
  else
    let interval := s.m_timerCheckAgain.intervalMs * 2 + minCheckAgainIntervalMs
    { s with m_timerCheckAgain := checkAgainLater changed interval s.m_timerCheckAgain }

/-- The clipboard tracker with its emit timer stopped, i.e. after the first
line of `check`. -/
def stoppedClipboardTracker (s : X11State) : ClipboardData :=
  { s.m_clipboardData with
     timerEmitChange := s.m_clipboardData.timerEmitChange.stop }

/-- The selection tracker with its emit timer stopped, i.e. after the second
line of `check`. -/
def stoppedSelectionTracker (s : X11State) : ClipboardData :=
  { s.m_selectionData with
     timerEmitChange := s.m_selectionData.timerEmitChange.stop }

/-- The first `updateClipboardData(&m_clipboardData)` call of `check`. -/
def clipboardReadResult (reads : ClipboardMode → Option RawData) (s : X11State) :
    ClipboardData × Timer × Bool :=
  updateClipboardData (reads ClipboardMode.Clipboard) s.m_timerCheckAgain.stop
    (stoppedClipboardTracker s)

/-- The second `updateClipboardData(&m_selectionData)` call of `check`,
evaluated after the first one. -/
def selectionReadResult (reads : ClipboardMode → Option RawData) (s : X11State) :
    ClipboardData × Timer × Bool :=
  updateClipboardData (reads ClipboardMode.Selection) (clipboardReadResult reads s).2.1
    (stoppedSelectionTracker s)

/-- `X11PlatformClipboard::check`.  `reads` supplies the external read result
per mode.  Besides the new state, returns the local `changed` value and the
list of trackers whose `updateClipboardData` was actually invoked: the C++
source combines the two calls with `||`, which short-circuits, so the
Selection call only runs when the Clipboard call returned false. -/
def check (reads : ClipboardMode → Option RawData) (s : X11State) :
    X11State × Bool × List ClipboardMode :=
  let r1 := clipboardReadResult reads s
  if r1.2.2 then
    (checkFinish { m_clipboardData := r1.1,
                   m_selectionData := stoppedSelectionTracker s,
                   m_timerCheckAgain := r1.2.1 } true,
     true, [ClipboardMode.Clipboard])
  else
    let r2 := selectionReadResult reads s
    (checkFinish { m_clipboardData := r1.1, m_selectionData := r2.1,
                   m_timerCheckAgain := r2.2.1 } r2.2.2,
     r2.2.2, [ClipboardMode.Clipboard, ClipboardMode.Selection])

/-- The lambda connected to `m_clipboardData.timerEmitChange` in
`startMonitoring`. -/
def clipboardEmitChangeCallback (s : X11State) : X11State × List ClipboardMode :=
  let r := useNewClipboardData s.m_clipboardData
  ({ s with m_clipboardData := r.1 }, r.2)

/-- The lambda connected to `m_selectionData.timerEmitChange` in
`startMonitoring`.  `selectionIncomplete` is the result of the external
`isSelectionIncomplete()` pointer query. -/
def selectionEmitChangeCallback (selectionIncomplete : Bool) (s : X11State) :
    X11State × List ClipboardMode :=
  if selectionIncomplete then
    if s.m_timerCheckAgain.active then
      (s, [])
    else
      ({ s with m_timerCheckAgain := s.m_timerCheckAgain.startWith minCheckAgainIntervalMs },
       [])
  else
    let r := useNewClipboardData s.m_selectionData
    ({ s with m_selectionData := r.1 }, r.2)

/-- `X11PlatformClipboard::onChanged`.  `currentWindowTitle` stands for the
external `clipboardOwner()` query; the `int mode` argument is identified with
the corresponding `ClipboardMode`. -/
def onChanged (currentWindowTitle : Payload) (mode : ClipboardMode) (s : X11State) : X11State :=
  let cd := s.tracker mode
  if cd.enabled then
    let cd1 := { cd with changed := true }
    let cd2 :=
      if currentWindowTitle ≠ cd1.newOwner then
        { cd1 with newOwner := currentWindowTitle }
      else cd1
    if mode = ClipboardMode.Selection ∧ s.m_timerCheckAgain.active then
      s.setTracker mode { cd2 with timerEmitChange := cd2.timerEmitChange.stop }
    else
      { s.setTracker mode cd2 with
          m_timerCheckAgain := checkAgainLater true 0 s.m_timerCheckAgain }
  else
    s

/-- `X11PlatformClipboard::startMonitoring`.  The baseline loop runs
`updateClipboardData` then `useNewClipboardData` for the clipboard tracker and
then for the selection tracker; `initSingleShotTimer(timer, 0, ...)` is
modelled as `setInterval 0` (the callback wiring is the two callback
definitions above).  The delegated `DummyClipboard::startMonitoring` is out of
scope.  Returns the new state and the modes emitted synchronously. -/
def startMonitoring (reads : ClipboardMode → Option RawData)
    (formats : List FormatId) (s : X11State) : X11State × List ClipboardMode :=
  let cbA := { s.m_clipboardData with formats := formats, owner := "", newOwner := "" }
  let selA := { s.m_selectionData with
                 formats := s.m_selectionData.formats ++ [mimeText],
                 owner := "", newOwner := "" }
  let rcb := updateClipboardData (reads ClipboardMode.Clipboard) s.m_timerCheckAgain cbA
  let ucb := useNewClipboardData rcb.1
  let rsel := updateClipboardData (reads ClipboardMode.Selection) rcb.2.1 selA
  let usel := useNewClipboardData rsel.1
  ({ m_clipboardData := { ucb.1 with timerEmitChange := ucb.1.timerEmitChange.setInterval 0 },
     m_selectionData := { usel.1 with timerEmitChange := usel.1.timerEmitChange.setInterval 0 },
     m_timerCheckAgain := rsel.2.1.setInterval 0 },
   ucb.2 ++ usel.2)

/-- `X11PlatformClipboard::setMonitoringEnabled`.  Emits nothing; the event
component is returned to make that observable. -/
def setMonitoringEnabled (mode : ClipboardMode) (enable : Bool) (s : X11State) :
    X11State × List ClipboardMode :=
  (s.setTracker mode { s.tracker mode with enabled := enable }, [])

/-- `X11PlatformClipboard::data`, a const method: returns the published data,
with the published owner injected under `mimeWindowTitle` when `mimeOwner` is
not among the payload formats.  The state component is returned unchanged. -/
def dataOp (mode : ClipboardMode) (_formats : List FormatId) (s : X11State) :
    X11State × VarMap :=
  let cd := s.tracker mode
  let d := cd.data
  (s, if containsKey d mimeOwner then d else insertMap d mimeWindowTitle cd.owner)

/-! ### Concrete instances used as test inputs -/

/-- A raw snapshot: plain text payload `a` with timestamp token `T1`. -/
def rawA : RawData :=
  fun f => if f = "text/plain" then some "a"
           else if f = "TIMESTAMP" then some "T1" else none

/-- A read oracle answering every buffer with `rawA`. -/
def readsA : ClipboardMode → Option RawData := fun _ => some rawA

/-- A state in which both trackers have a pending change already flagged. -/
def bothPendingState : X11State :=
  { m_clipboardData :=
      { mode := ClipboardMode.Clipboard, formats := ["text/plain"],
        newData := [("text/plain", "a")], changed := true,
        newDataTimestamp := "T0" },
    m_selectionData :=
      { mode := ClipboardMode.Selection, formats := ["text/plain"],
        newData := [("text/plain", "b")], changed := true,
        newDataTimestamp := "T0" },
    m_timerCheckAgain := Timer.mk 0 false }

/-- A fresh component state, as after construction. -/
def initState : X11State :=
  { m_clipboardData := { mode := ClipboardMode.Clipboard },
    m_selectionData := { mode := ClipboardMode.Selection },
    m_timerCheckAgain := Timer.mk 0 false }

/-- A tracker right after a change was detected: dirty, with pending data
and an armed emit timer. -/
def dirtyTracker : ClipboardData :=
  { mode := ClipboardMode.Clipboard, formats := ["text/plain"],
    newOwner := "W", newData := [("text/plain", "x")], changed := true,
    newDataTimestamp := "T1", timerEmitChange := Timer.mk 0 true }

/-- A state whose clipboard tracker is disabled yet has a pending change and
an armed emit timer (reachable: `setMonitoringEnabled` does not stop it). -/
def disabledPendingState : X11State :=
  { m_clipboardData := { dirtyTracker with enabled := false },
    m_selectionData := { mode := ClipboardMode.Selection },
    m_timerCheckAgain := Timer.mk 0 false }

/-- A state with the shared re-check timer already armed at 500 ms and a
pending selection change with an armed emit timer. -/
def activeTimerState : X11State :=
  { m_clipboardData := { mode := ClipboardMode.Clipboard },
    m_selectionData :=
      { mode := ClipboardMode.Selection, formats := ["text/plain"],
        newData := [("text/plain", "s")], changed := true,
        newDataTimestamp := "T1", timerEmitChange := Timer.mk 0 true },
    m_timerCheckAgain := Timer.mk 500 true }

/-- Both trackers disabled: every check cycle reports no change. -/
def idleState : X11State :=
  { m_clipboardData := { mode := ClipboardMode.Clipboard, enabled := false },
    m_selectionData := { mode := ClipboardMode.Selection, enabled := false },
    m_timerCheckAgain := Timer.mk 0 false }

/-- A clipboard tracker that has published the restriction of `rawA`. -/
def publishedRawATracker : ClipboardData :=
  { mode := ClipboardMode.Clipboard, formats := ["text/plain"],
    data := [("text/plain", "a")], newData := [("text/plain", "a")],
    newDataTimestamp := "T1" }

/-- A state whose clipboard tracker has published `rawA`. -/
def publishedRawAState : X11State :=
  { m_clipboardData := publishedRawATracker,
    m_selectionData := { mode := ClipboardMode.Selection },
    m_timerCheckAgain := Timer.mk 0 false }

/-! ### Helper lemmas about the map operations -/

theorem lookupMap_append (m1 m2 : VarMap) (f : FormatId) :
    lookupMap (m1 ++ m2) f =
      (match lookupMap m1 f with
       | some v => some v
       | none => lookupMap m2 f) := by
  induction m1 with
  | nil => rfl
  | cons p m ih =>
    by_cases h : p.1 = f
    · simp [lookupMap, h]
    · simp [lookupMap, h, ih]

theorem lookupMap_map_replace_ne (m : VarMap) (k : FormatId) (v : Payload) (f : FormatId)
    (hf : f ≠ k) :
    lookupMap (m.map (fun p => if p.1 = k then (k, v) else p)) f = lookupMap m f := by
  induction m with
  | nil => rfl
  | cons p m ih =>
    by_cases hp : p.1 = k
    · simp [lookupMap, hp, ih, Ne.symm hf]
    · by_cases hpf : p.1 = f
      · simp [lookupMap, hp, hpf, hf]
      · simp [lookupMap, hp, hpf, ih]

theorem lookupMap_map_replace_eq (m : VarMap) (k : FormatId) (v : Payload)
    (hc : containsKey m k = true) :
    lookupMap (m.map (fun p => if p.1 = k then (k, v) else p)) k = some v := by
  induction m with
  | nil => simp [containsKey, lookupMap] at hc
  | cons p m ih =>
    by_cases hp : p.1 = k
    · simp [lookupMap, hp]
    · have hc2 : containsKey m k = true := by
        simpa [containsKey, lookupMap, hp] using hc
      simp [lookupMap, hp, ih hc2]

theorem lookupMap_insertMap (m : VarMap) (k : FormatId) (v : Payload) (f : FormatId) :
    lookupMap (insertMap m k v) f = if f = k then some v else lookupMap m f := by
  unfold insertMap
  by_cases hc : containsKey m k = true
  · rw [if_pos hc]
    by_cases hf : f = k
    · subst hf
      simp [lookupMap_map_replace_eq m f v hc]
    · simp [lookupMap_map_replace_ne m k v f hf, hf]
  · rw [if_neg hc]
    rw [lookupMap_append]
    by_cases hf : f = k
    · subst hf
      have hnone : lookupMap m f = none := by
        have := Bool.not_eq_true (containsKey m f) |>.mp ?_ <;> try exact hc
        · exact Option.not_isSome_iff_eq_none.mp (by simpa [containsKey] using this)
      simp [hnone, lookupMap]
    · cases h : lookupMap m f <;> simp [h, lookupMap, Ne.symm hf, hf]

theorem cloneData_congr (raw1 raw2 : RawData) (formats : List FormatId)
    (h : ∀ f ∈ formats, raw1 f = raw2 f) :
    cloneData raw1 formats = cloneData raw2 formats := by
  induction formats with
  | nil => rfl
  | cons f fs ih =>
    have hf : raw1 f = raw2 f := h f (by simp)
    have hfs : ∀ g ∈ fs, raw1 g = raw2 g := fun g hg => h g (by simp [hg])
    have ih2 := ih hfs
    simp only [cloneData, List.filterMap_cons] at ih2 ⊢
    rw [hf, ih2]

/-! ### Structural helper lemmas about the operations -/

theorem tracker_setTracker (s : X11State) (mode : ClipboardMode) (cd : ClipboardData) :
    (s.setTracker mode cd).tracker mode = cd := by
  cases mode <;> rfl

theorem tracker_set_timerCheckAgain (s : X11State) (t : Timer) (mode : ClipboardMode) :
    X11State.tracker { s with m_timerCheckAgain := t } mode = s.tracker mode := by
  cases mode <;> rfl

theorem checkFinish_preserves_trackers (s : X11State) (b : Bool) :
    (checkFinish s b).m_clipboardData = s.m_clipboardData ∧
    (checkFinish s b).m_selectionData = s.m_selectionData := by
  unfold checkFinish
  split <;> exact ⟨rfl, rfl⟩

theorem updateClipboardData_preserves_mode (rd : Option RawData) (t : Timer)
    (cd : ClipboardData) :
    (updateClipboardData rd t cd).1.mode = cd.mode := by
  by_cases hen : cd.enabled = true
  · cases rd with
    | none =>
      by_cases hr : cd.retry < maxRetryCount <;> simp [updateClipboardData, hen, hr]
    | some raw =>
      by_cases hts : rawTimestamp raw = "" ∨ cd.newDataTimestamp ≠ rawTimestamp raw <;>
        by_cases hch : cd.changed = true <;>
          simp [updateClipboardData, hen, hts, hch] <;>
            split <;> rfl
  · simp [updateClipboardData, hen]

theorem updateClipboardData_true_starts_emit_timer (rd : Option RawData) (t : Timer)
    (cd : ClipboardData) (h : (updateClipboardData rd t cd).2.2 = true) :
    (updateClipboardData rd t cd).1.timerEmitChange.active = true := by
  by_cases hen : cd.enabled = true
  · cases rd with
    | none =>
      by_cases hr : cd.retry < maxRetryCount <;>
        simp [updateClipboardData, hen, hr] at h
    | some raw =>
      by_cases hts : rawTimestamp raw = "" ∨ cd.newDataTimestamp ≠ rawTimestamp raw <;>
        by_cases hch : cd.changed = true <;>
          simp only [updateClipboardData, hen, hts, hch, if_true, if_false] <;>
            simp [updateClipboardData, hen, hts, hch, Timer.start] at h ⊢ <;>
              split <;> simp_all [Timer.start]
  · simp [updateClipboardData, hen] at h

/-- `useNewClipboardData` emits exactly one `changed` event, for this
tracker's mode. -/
theorem useNewClipboardData_emits_once (cd : ClipboardData) :
    (useNewClipboardData cd).2 = [cd.mode] := rfl

theorem onChanged_tracker_facts (title : Payload) (mode : ClipboardMode) (s : X11State)
    (hen : (s.tracker mode).enabled = true) :
    ((onChanged title mode s).tracker mode).changed = true ∧
    ((onChanged title mode s).tracker mode).mode = (s.tracker mode).mode ∧
    ((onChanged title mode s).tracker mode).enabled = true := by
  simp only [onChanged, hen, if_true]
  split
  · rw [tracker_setTracker]
    split <;> simp [hen]
  · rw [tracker_set_timerCheckAgain, tracker_setTracker]
    split <;> simp [hen]

/-- A dirty enabled tracker on a successful read: `updateClipboardData`
reports a change, arms the emit timer, and preserves mode and dirtiness. -/
theorem updateClipboardData_dirty_success (cd : ClipboardData) (t : Timer) (raw : RawData)
    (hen : cd.enabled = true) (hch : cd.changed = true) :
    (updateClipboardData (some raw) t cd).2.2 = true ∧
    (updateClipboardData (some raw) t cd).1.timerEmitChange.active = true ∧
    (updateClipboardData (some raw) t cd).1.mode = cd.mode := by
  by_cases hts : rawTimestamp raw = "" ∨ cd.newDataTimestamp ≠ rawTimestamp raw <;>
    simp [updateClipboardData, hen, hts, hch, Timer.start]

/-! ### Claim theorems -/

/-- Claim C9: for every mode and formats argument, `data(mode, formats)`
returns the last-published snapshot for that mode, with the published owner
window title injected under the reserved key `mimeWindowTitle` when
`mimeOwner` is not already present among the payload formats; the call does
not modify any tracker state. -/
theorem data_returns_published_with_owner_injection (mode : ClipboardMode)
    (formats : List FormatId) (s : X11State) :
    (dataOp mode formats s).1 = s ∧
    (∀ f, lookupMap (dataOp mode formats s).2 f =
      (if containsKey (s.tracker mode).data mimeOwner then
        lookupMap (s.tracker mode).data f
       else if f = mimeWindowTitle then some (s.tracker mode).owner
       else lookupMap (s.tracker mode).data f)) := by
  refine ⟨rfl, fun f => ?_⟩
  unfold dataOp
  by_cases hc : containsKey (s.tracker mode).data mimeOwner = true
  · simp [hc]
  · simp [hc, lookupMap_insertMap]

/-- Claim C5: on a read failure with `retry < maxRetryCount`, `attemptRead`
increments the retry counter, arms the shared re-check timer at
`retry * maxCheckAgainIntervalMs` (with the incremented counter) and reports
no change; at `retry = maxRetryCount` a failure changes nothing and arms no
timer; the retry counter never exceeds `maxRetryCount`. -/
theorem retry_bounded_backoff (cd : ClipboardData) (t : Timer)
    (hen : cd.enabled = true) :
    (cd.retry < maxRetryCount →
      updateClipboardData none t cd =
        ({ cd with retry := cd.retry + 1 },
         t.startWith ((cd.retry + 1) * maxCheckAgainIntervalMs), false)) ∧
    (maxRetryCount ≤ cd.retry →
      updateClipboardData none t cd = (cd, t, false)) ∧
    (cd.retry ≤ maxRetryCount →
      (updateClipboardData none t cd).1.retry ≤ maxRetryCount) := by
  refine ⟨fun h => ?_, fun h => ?_, fun h => ?_⟩
  · simp [updateClipboardData, hen, h]
  · simp [updateClipboardData, hen, Nat.not_lt.mpr h]
  · by_cases h2 : cd.retry < maxRetryCount
    · simp only [updateClipboardData, hen, if_true, h2]
      omega
    · simpa [updateClipboardData, hen, h2] using h

/-- Witness for C5 at a concrete tracker with `retry = 1`. -/
theorem retry_bounded_backoff_witness :
    updateClipboardData none (Timer.mk 0 false)
        { mode := ClipboardMode.Clipboard, retry := 1 } =
      ({ mode := ClipboardMode.Clipboard, retry := 2 },
       Timer.mk 1000 true, false) :=
  (retry_bounded_backoff { mode := ClipboardMode.Clipboard, retry := 1 }
      (Timer.mk 0 false) rfl).1 (by decide)

/-- Claim C8: when the tracker is enabled and not already dirty and its
published and pending mappings both equal the restriction of a snapshot
`raw1` to the subscribed formats, a fresh read of a snapshot `raw2` that
agrees with `raw1` on every subscribed format reports no change: the result
is false, the shared timer and the emit timer are untouched, the dirty flag
stays clear and the published data stays as it was.  Owner and timestamp are
not part of the comparison: `raw2` may have any `TIMESTAMP` payload and the
tracker any owner fields. -/
theorem diff_ignores_unsubscribed_formats (cd : ClipboardData) (t : Timer)
    (raw1 raw2 : RawData)
    (hen : cd.enabled = true) (hch : cd.changed = false)
    (hdata : cd.data = cloneData raw1 cd.formats)
    (hnew : cd.newData = cloneData raw1 cd.formats)
    (hagree : ∀ f ∈ cd.formats, raw1 f = raw2 f) :
    (updateClipboardData (some raw2) t cd).2.2 = false ∧
    (updateClipboardData (some raw2) t cd).2.1 = t ∧
    (updateClipboardData (some raw2) t cd).1.changed = false ∧
    (updateClipboardData (some raw2) t cd).1.timerEmitChange = cd.timerEmitChange ∧
    (updateClipboardData (some raw2) t cd).1.data = cd.data := by
  have hclone : cloneData raw2 cd.formats = cloneData raw1 cd.formats :=
    (cloneData_congr raw1 raw2 cd.formats hagree).symm
  simp only [updateClipboardData, hen, if_true]
  by_cases hts : rawTimestamp raw2 = "" ∨ cd.newDataTimestamp ≠ rawTimestamp raw2
  · simp [hts, hch, hclone, hdata, hnew]
  · simp [hts, hch, hdata, hnew]

/-- Witness for C8: two snapshots differing only in the unsubscribed format
`image/png` and in `TIMESTAMP` are reported as no change. -/
theorem diff_ignores_unsubscribed_formats_witness :
    (updateClipboardData
        (some (fun f => if f = "text/plain" then some "a"
                        else if f = "image/png" then some "img2"
                        else if f = "TIMESTAMP" then some "T2" else none))
        (Timer.mk 0 false)
        { mode := ClipboardMode.Clipboard, formats := ["text/plain"],
          data := [("text/plain", "a")], newData := [("text/plain", "a")],
          newDataTimestamp := "T1" }).2.2 = false :=
  (diff_ignores_unsubscribed_formats
    { mode := ClipboardMode.Clipboard, formats := ["text/plain"],
      data := [("text/plain", "a")], newData := [("text/plain", "a")],
      newDataTimestamp := "T1" }
    (Timer.mk 0 false)
    (fun f => if f = "text/plain" then some "a"
              else if f = "image/png" then some "img1"
              else if f = "TIMESTAMP" then some "T1" else none)
    (fun f => if f = "text/plain" then some "a"
              else if f = "image/png" then some "img2"
              else if f = "TIMESTAMP" then some "T2" else none)
    rfl rfl (by decide) (by decide) (by decide)).1

/-- Claim C10: after an owner-change notification on an enabled tracker the
dirty flag is set eagerly, so the next successful read reports a change and
arms the emit timer even when the read snapshot restricted to the subscribed
formats equals the published mapping and the timestamp token is unchanged;
the subsequent publish step then emits `changed(mode)`. -/
theorem owner_change_alone_triggers_changed_event (title : Payload)
    (mode : ClipboardMode) (s : X11State) (raw : RawData)
    (hen : (s.tracker mode).enabled = true)
    (hmode : (s.tracker mode).mode = mode)
    (heq : cloneData raw (s.tracker mode).formats = (s.tracker mode).data)
    (hts : rawTimestamp raw = (s.tracker mode).newDataTimestamp) :
    ((onChanged title mode s).tracker mode).changed = true ∧
    (updateClipboardData (some raw) (onChanged title mode s).m_timerCheckAgain
        ((onChanged title mode s).tracker mode)).2.2 = true ∧
    (updateClipboardData (some raw) (onChanged title mode s).m_timerCheckAgain
        ((onChanged title mode s).tracker mode)).1.timerEmitChange.active = true ∧
    (useNewClipboardData
        (updateClipboardData (some raw) (onChanged title mode s).m_timerCheckAgain
          ((onChanged title mode s).tracker mode)).1).2 = [mode] := by
  obtain ⟨h1, h2, h3⟩ := onChanged_tracker_facts title mode s hen
  obtain ⟨h4, h5, h6⟩ := updateClipboardData_dirty_success
    ((onChanged title mode s).tracker mode)
    (onChanged title mode s).m_timerCheckAgain raw h3 h1
  exact ⟨h1, h4, h5, by rw [useNewClipboardData_emits_once, h6, h2, hmode]⟩

/-- Witness for C10: an owner change on a tracker that has published `rawA`,
followed by a fresh read of the identical `rawA`, still yields a
`changed(Clipboard)` emission. -/
theorem owner_change_alone_triggers_changed_event_witness :
    (useNewClipboardData
        (updateClipboardData (some rawA)
          (onChanged "NewOwner" ClipboardMode.Clipboard publishedRawAState).m_timerCheckAgain
          ((onChanged "NewOwner" ClipboardMode.Clipboard publishedRawAState).tracker
            ClipboardMode.Clipboard)).1).2 = [ClipboardMode.Clipboard] :=
  (owner_change_alone_triggers_changed_event "NewOwner" ClipboardMode.Clipboard
    publishedRawAState rawA rfl rfl (by decide) (by decide)).2.2.2

/-- Claim C7: `checkAgainLater` arms the shared timer at the requested
interval when it is below `maxCheckAgainIntervalMs`, at exactly
`maxCheckAgainIntervalMs` when the request is at or above it and something
changed, and otherwise leaves it disarmed with interval 0; the timer interval
after `checkAgainLater` never exceeds `maxCheckAgainIntervalMs`; and a
`check` cycle whose two reads report no change and leave the shared timer
alone re-schedules at `previousInterval * 2 + minCheckAgainIntervalMs`,
disarming once that value reaches `maxCheckAgainIntervalMs`. -/
theorem scheduler_backoff (t : Timer) (chg : Bool) (i : Nat)
    (reads : ClipboardMode → Option RawData) (s : X11State)
    (h1 : (clipboardReadResult reads s).2 = (s.m_timerCheckAgain.stop, false))
    (h2 : (selectionReadResult reads s).2 = (s.m_timerCheckAgain.stop, false)) :
    (i < maxCheckAgainIntervalMs → checkAgainLater chg i t = Timer.mk i true) ∧
    (maxCheckAgainIntervalMs ≤ i → chg = true →
      checkAgainLater chg i t = Timer.mk maxCheckAgainIntervalMs true) ∧
    (maxCheckAgainIntervalMs ≤ i → chg = false →
      checkAgainLater chg i t = Timer.mk 0 t.active) ∧
    (checkAgainLater chg i t).intervalMs ≤ maxCheckAgainIntervalMs ∧
    ((check reads s).1.m_timerCheckAgain =
      if s.m_timerCheckAgain.intervalMs * 2 + minCheckAgainIntervalMs
          < maxCheckAgainIntervalMs
       then Timer.mk (s.m_timerCheckAgain.intervalMs * 2 + minCheckAgainIntervalMs) true
       else Timer.mk 0 false) := by
  refine ⟨fun h => ?_, fun h hc => ?_, fun h hc => ?_, ?_, ?_⟩
  · simp [checkAgainLater, h, Timer.setInterval, Timer.start]
  · simp [checkAgainLater, Nat.not_lt.mpr h, hc, Timer.setInterval, Timer.startWith]
  · simp [checkAgainLater, Nat.not_lt.mpr h, hc, Timer.setInterval]
  · unfold checkAgainLater
    split
    · simp only [Timer.setInterval, Timer.start]
      omega
    · split <;> simp [Timer.setInterval, Timer.startWith]
  · have h1b : (clipboardReadResult reads s).2.2 = false := by rw [h1]
    have h1a : (clipboardReadResult reads s).2.1 = s.m_timerCheckAgain.stop := by rw [h1]
    have h2b : (selectionReadResult reads s).2.2 = false := by rw [h2]
    have h2a : (selectionReadResult reads s).2.1 = s.m_timerCheckAgain.stop := by rw [h2]
    simp only [check, h1b, Bool.false_eq_true, if_false, h2a, h2b]
    by_cases hlt : s.m_timerCheckAgain.intervalMs * 2 + minCheckAgainIntervalMs
        < maxCheckAgainIntervalMs <;>
      simp [checkFinish, checkAgainLater, Timer.stop, Timer.setInterval,
        Timer.start, hlt]

/-- Witness for C7: with both trackers disabled, a check from interval 0
re-arms the shared timer at 50 ms. -/
theorem scheduler_backoff_witness :
    (check (fun _ => none) idleState).1.m_timerCheckAgain = Timer.mk 50 true := by
  have h := (scheduler_backoff (Timer.mk 0 false) false 0 (fun _ => none) idleState
    rfl rfl).2.2.2.2
  simpa [idleState, minCheckAgainIntervalMs, maxCheckAgainIntervalMs] using h

/-- Claim C1 counterexample: in `bothPendingState` both trackers have pending
changes and a selection read on its own would report a change, yet `check`
runs `updateClipboardData` only on the Clipboard tracker - the `||` in the
source short-circuits, so the Selection tracker is not read at all. -/
theorem check_not_unconditional_cex :
    bothPendingState.m_clipboardData.changed = true ∧
    bothPendingState.m_selectionData.changed = true ∧
    (selectionReadResult readsA bothPendingState).2.2 = true ∧
    (check readsA bothPendingState).2.2 = [ClipboardMode.Clipboard] ∧
    ClipboardMode.Selection ∉ (check readsA bothPendingState).2.2 := by
  refine ⟨rfl, rfl, by decide, by decide, by decide⟩

/-- Claim C1 amended: in every `check` the Clipboard tracker is read first
and the Selection tracker is read only when the Clipboard read reported no
change; the overall changed result equals the OR of the two read results;
and whenever the Clipboard read reports a change, after `check` only the
Clipboard emit timer is armed (the Selection one is stopped), so the
Clipboard changed event is observable before any Selection changed event. -/
theorem check_clipboard_priority (reads : ClipboardMode → Option RawData)
    (s : X11State) :
    (check reads s).2.2 =
      (if (clipboardReadResult reads s).2.2 then [ClipboardMode.Clipboard]
       else [ClipboardMode.Clipboard, ClipboardMode.Selection]) ∧
    (check reads s).2.1 =
      ((clipboardReadResult reads s).2.2 || (selectionReadResult reads s).2.2) ∧
    ((clipboardReadResult reads s).2.2 = true →
      (check reads s).1.m_clipboardData.timerEmitChange.active = true ∧
      (check reads s).1.m_selectionData.timerEmitChange.active = false) := by
  by_cases hr : (clipboardReadResult reads s).2.2 = true
  · refine ⟨by simp [check, hr], by simp [check, hr], fun _ => ⟨?_, ?_⟩⟩
    · simp only [check, hr, if_true]
      rw [(checkFinish_preserves_trackers _ _).1]
      exact updateClipboardData_true_starts_emit_timer _ _ _ hr
    · simp only [check, hr, if_true]
      rw [(checkFinish_preserves_trackers _ _).2]
      simp [stoppedSelectionTracker, Timer.stop]
  · have hr2 : (clipboardReadResult reads s).2.2 = false := by simpa using hr
    exact ⟨by simp [check, hr2], by simp [check, hr2], fun hc => absurd hc hr⟩

/-- Claim C2 counterexample: `startMonitoring` emits `changed` synchronously:
on the fresh `initState` with oracle `readsA` it emits for both trackers
before returning, so not every emission happens from a timer callback. -/
theorem changed_emitted_synchronously_cex :
    (startMonitoring readsA ["text/plain"] initState).2 =
      [ClipboardMode.Clipboard, ClipboardMode.Selection] ∧
    (startMonitoring readsA ["text/plain"] initState).2 ≠ [] := by
  exact ⟨by decide, by decide⟩

/-- Claim C2 amended: every publish step emits exactly one changed event and
`setMonitoringEnabled` never emits, but `startMonitoring` does emit
synchronously: its baseline loop publishes each tracker once, emitting the
clipboard tracker event and then the selection tracker event before it
returns. -/
theorem changed_emission_discipline :
    (∀ cd : ClipboardData, (useNewClipboardData cd).2 = [cd.mode]) ∧
    (∀ (mode : ClipboardMode) (e : Bool) (s : X11State),
      (setMonitoringEnabled mode e s).2 = []) ∧
    (∀ (reads : ClipboardMode → Option RawData) (formats : List FormatId)
        (s : X11State),
      (startMonitoring reads formats s).2 =
        [s.m_clipboardData.mode, s.m_selectionData.mode]) := by
  refine ⟨fun cd => rfl, fun mode e s => rfl, fun reads formats s => ?_⟩
  simp [startMonitoring, useNewClipboardData, updateClipboardData_preserves_mode]

/-- Claim C3 counterexample: two successive publish calls on `dirtyTracker`
emit two changed events; the second call emits again even though the dirty
flag is already false after the first call. -/
theorem publish_twice_emits_twice_cex :
    (useNewClipboardData dirtyTracker).1.changed = false ∧
    (useNewClipboardData ((useNewClipboardData dirtyTracker).1)).2 =
      [ClipboardMode.Clipboard] ∧
    (useNewClipboardData dirtyTracker).2 ++
        (useNewClipboardData ((useNewClipboardData dirtyTracker).1)).2 =
      [ClipboardMode.Clipboard, ClipboardMode.Clipboard] := by
  exact ⟨rfl, rfl, rfl⟩

/-- Claim C3 amended: `useNewClipboardData` is idempotent on the tracker
state - after the first call the dirty flag is false and a second call
leaves the tracker unchanged - but it emits unconditionally, so the second
call still emits one changed event; at-most-once emission per detected
change holds in the running system only because publish stops the emit
timer, which only a new `updateClipboardData` difference re-arms. -/
theorem publish_idempotent_on_state_not_on_events (cd : ClipboardData) :
    (useNewClipboardData cd).1.changed = false ∧
    (useNewClipboardData ((useNewClipboardData cd).1)).1 = (useNewClipboardData cd).1 ∧
    (useNewClipboardData ((useNewClipboardData cd).1)).2 = [cd.mode] ∧
    (useNewClipboardData cd).1.timerEmitChange.active = false := by
  exact ⟨rfl, rfl, rfl, rfl⟩

/-- Claim C4 counterexample: in `disabledPendingState` the clipboard tracker
is disabled, yet when its debounce-emit timer fires the publish step still
emits a changed event and overwrites the published data and owner: the
publish step does not re-check `enabled`. -/
theorem disabled_publish_not_noop_cex :
    disabledPendingState.m_clipboardData.enabled = false ∧
    (clipboardEmitChangeCallback disabledPendingState).2 = [ClipboardMode.Clipboard] ∧
    (clipboardEmitChangeCallback disabledPendingState).1.m_clipboardData.data =
      [("text/plain", "x")] ∧
    (clipboardEmitChangeCallback disabledPendingState).1.m_clipboardData.data ≠
      disabledPendingState.m_clipboardData.data ∧
    (clipboardEmitChangeCallback disabledPendingState).1.m_clipboardData.owner = "W" := by
  refine ⟨rfl, rfl, rfl, by decide, rfl⟩

/-- Claim C4 amended: the emit-timer callbacks never consult `enabled`: when
the clipboard emit timer fires (or the selection one fires with a complete
selection), pending data and owner are copied into the published fields, the
dirty flag is cleared and exactly one changed event is emitted, whatever the
value of `enabled`; disabling only suppresses future `attemptRead` polls. -/
theorem emit_timer_fires_regardless_of_enabled (s : X11State) :
    ((clipboardEmitChangeCallback s).2 = [s.m_clipboardData.mode] ∧
     (clipboardEmitChangeCallback s).1.m_clipboardData.data =
       s.m_clipboardData.newData ∧
     (clipboardEmitChangeCallback s).1.m_clipboardData.owner =
       s.m_clipboardData.newOwner ∧
     (clipboardEmitChangeCallback s).1.m_clipboardData.changed = false) ∧
    ((selectionEmitChangeCallback false s).2 = [s.m_selectionData.mode] ∧
     (selectionEmitChangeCallback false s).1.m_selectionData.data =
       s.m_selectionData.newData ∧
     (selectionEmitChangeCallback false s).1.m_selectionData.changed = false) := by
  exact ⟨⟨rfl, rfl, rfl, rfl⟩, ⟨rfl, rfl, rfl⟩⟩

/-- Claim C6 counterexample: in `activeTimerState` the selection tracker has
a pending change and the gate reports an incomplete selection, but because
the shared re-check timer is already armed at 500 ms, no 50 ms re-check is
scheduled: the whole state is left exactly as it was. -/
theorem selection_gate_no_50ms_rearm_cex :
    activeTimerState.m_selectionData.changed = true ∧
    activeTimerState.m_timerCheckAgain = Timer.mk 500 true ∧
    (selectionEmitChangeCallback true activeTimerState).2 = [] ∧
    (selectionEmitChangeCallback true activeTimerState).1 = activeTimerState ∧
    (selectionEmitChangeCallback true activeTimerState).1.m_timerCheckAgain.intervalMs ≠
      minCheckAgainIntervalMs := by
  refine ⟨rfl, rfl, rfl, rfl, by decide⟩

/-- Claim C6 amended: when the selection emit timer fires and the gate
reports an incomplete selection, nothing is published: no changed event is
emitted and both trackers (pending and published data included) are left
untouched; the shared re-check timer is started at `minCheckAgainIntervalMs`
(50 ms) only when it is not already active, and is left unchanged
otherwise. -/
theorem selection_gate_veto (s : X11State) :
    (selectionEmitChangeCallback true s).2 = [] ∧
    (selectionEmitChangeCallback true s).1.m_clipboardData = s.m_clipboardData ∧
    (selectionEmitChangeCallback true s).1.m_selectionData = s.m_selectionData ∧
    (selectionEmitChangeCallback true s).1.m_timerCheckAgain =
      (if s.m_timerCheckAgain.active then s.m_timerCheckAgain
       else s.m_timerCheckAgain.startWith minCheckAgainIntervalMs) := by
  by_cases h : s.m_timerCheckAgain.active <;>
    simp [selectionEmitChangeCallback, h]

end X11Clipboard
